import Mathlib

/-!
Shallow embedding of the `rust-amplify` attribute-helper sources:
`src/proc_macro.rs` (free functions inspecting a parsed declaration's
attribute list) and `syn/src/val.rs` (the `ArgValue` tagged union and its
conversions).  Rust `Result` is embedded as `Except`, panics (`expect`) as
an outer `Option` layer, and machine data (identifiers, literal payloads)
as Lean `String`/`Nat`/`Bool`/`Char` values.
-/

namespace Amplify

/-- Source span (`proc_macro2::Span`).  Spans carry source positions that the
embedding abstracts to an opaque tag; equality is all the code observes. -/
abbrev Span := Nat

/-- `Span::call_site()`, the span attached to freshly synthesised tokens. -/
def Span.callSite : Span := 0

/-- `syn::LitStr`: a string literal token.  `LitStr::new(val, span)` stores
the string and `value()` returns it back. -/
structure LitStr where
  value : String
  span : Span
deriving Repr, DecidableEq

/-- `syn::LitByteStr`: a byte-string literal token (bytes as `Nat < 256`). -/
structure LitByteStr where
  value : List Nat
  span : Span
deriving Repr, DecidableEq

/-- `syn::LitByte`: a single byte literal token. -/
structure LitByte where
  value : Nat
  span : Span
deriving Repr, DecidableEq

/-- `syn::LitBool`: a boolean literal token. -/
structure LitBool where
  value : Bool
  span : Span
deriving Repr, DecidableEq

/-- `syn::LitChar`: a character literal token. -/
structure LitChar where
  value : Char
  span : Span
deriving Repr, DecidableEq

/-- `syn::LitInt`: an integer literal token, kept in its source digit form. -/
structure LitInt where
  digits : String
  span : Span
deriving Repr, DecidableEq

/-- `syn::LitFloat`: a float literal token, kept in its source digit form. -/
structure LitFloat where
  digits : String
  span : Span
deriving Repr, DecidableEq

/-- `syn::Lit` (syn 1.x): the closed enumeration of literal subtypes. -/
inductive Lit where
  | Str (s : LitStr)
  | ByteStr (s : LitByteStr)
  | Byte (b : LitByte)
  | Char (c : LitChar)
  | Int (i : LitInt)
  | Float (f : LitFloat)
  | Bool (b : LitBool)
  | Verbatim (tokens : String)
deriving Repr, DecidableEq

/-- A path segment (`syn::PathSegment`): an identifier plus possible generic
arguments, abstracted to a flag since only their absence is inspected. -/
structure PathSegment where
  ident : String
  hasArguments : Bool
deriving Repr, DecidableEq

/-- `syn::Path`: optional leading `::` and a list of segments. -/
structure Path where
  leadingColon : Bool
  segments : List PathSegment
deriving Repr, DecidableEq

/-- `syn::Path::get_ident`: the single identifier of a path that has no
leading colon, exactly one segment and no generic arguments. -/
def Path.get_ident (p : Path) : Option String :=
  match p.leadingColon, p.segments with
  | false, [seg] => if seg.hasArguments then none else some seg.ident
  | _, _ => none

/-- `syn::Path::is_ident`: whether the path is exactly the given identifier. -/
def Path.is_ident (p : Path) (name : String) : Bool :=
  p.get_ident == some name

/-- `syn::MetaNameValue`: the `name = value` attribute meta shape
(`eq_token` carries no information and is omitted). -/
structure MetaNameValue where
  path : Path
  lit : Lit
deriving Repr, DecidableEq

mutual
/-- `syn::Meta` (syn 1.x): a parsed attribute body — a bare path, a
parenthesized list `name(...)`, or a `name = value` pair.  The `Meta.List`
constructor inlines `syn::MetaList`s `path` and `nested` fields. -/
inductive Meta where
  | Path (path : Path)
  | List (path : Path) (nested : List NestedMeta)
  | NameValue (nv : MetaNameValue)

/-- `syn::NestedMeta` (syn 1.x): an element of a parenthesized meta list. -/
inductive NestedMeta where
  | Meta (m : Meta)
  | Lit (lit : Lit)
end

/-- `syn::Attribute`.  The attribute's raw token stream is not modelled;
instead the outcome of `Attribute::parse_meta()` is carried directly:
`some m` for `Ok(m)` and `none` for a `syn` parse error (whose payload the
sources never inspect). -/
structure Attribute where
  path : Path
  span : Span
  parsed : Option Meta

/-- `syn::Attribute::parse_meta`. -/
def Attribute.parse_meta (a : Attribute) : Option Meta := a.parsed

/-- `syn::DeriveInput`, restricted to the only field the sources read. -/
structure DeriveInput where
  attrs : List Attribute

/-- `syn::Error`: a diagnostic message attached to a source span, built with
`Error::new(span, message)`. -/
structure SynError where
  span : Span
  message : String
deriving Repr, DecidableEq

/-- The message produced by the `proc_macro_err!` macro:
`format!("Attribute macro canonical form violation ...", example, msg)`. -/
def canonical_msg (ex msg : String) : String :=
  "Attribute macro canonical form `" ++ ex ++ "` violation: " ++ msg

/-- The `proc_macro_err!` macro: `Err(Error::new(span, format!(...)))`.
The span is `$attr.span()` at the expansion site. -/
def proc_macro_err (span : Span) (msg ex : String) : SynError :=
  { span := span, message := canonical_msg ex msg }

/-- The loop body of `attr_named_value`: scan the attribute list for the
first attribute whose path is the given identifier and classify its parsed
meta; `Ok(None)` when no attribute matches. -/
def attr_named_value_loop (attrs : List Attribute) (ident ex : String) :
    Except SynError (Option Lit) :=
  match attrs with
  | [] => .ok none
  | attr :: rest =>
    if attr.path.is_ident ident then
      match attr.parse_meta with
      | some (Meta.Path _) =>
        .error (proc_macro_err attr.span "unexpected path argument" ex)
      | some (Meta.List _ _) =>
        .error (proc_macro_err attr.span
          "must have form `name=value`, not `name(value)`" ex)
      | some (Meta.NameValue nv) => .ok (some nv.lit)
      | none => .error (proc_macro_err attr.span "wrong format" ex)
    else
      attr_named_value_loop rest ident ex

/-- `attr_named_value(input, ident, ex)` from `src/proc_macro.rs`. -/
def attr_named_value (input : DeriveInput) (ident ex : String) :
    Except SynError (Option Lit) :=
  attr_named_value_loop input.attrs ident ex

/-- `attr_list(attrs, ident, ex)` from `src/proc_macro.rs`: like
`attr_named_value` but accepts the parenthesized-list shape, returning its
nested items (`list.nested.into_iter().collect()` keeps them in order). -/
def attr_list (attrs : List Attribute) (ident ex : String) :
    Except SynError (Option (List NestedMeta)) :=
  match attrs with
  | [] => .ok none
  | attr :: rest =>
    if attr.path.is_ident ident then
      match attr.parse_meta with
      | some (Meta.Path _) =>
        .error (proc_macro_err attr.span "unexpected path argument" ex)
      | some (Meta.List _ nested) => .ok (some nested)
      | some (Meta.NameValue _) =>
        .error (proc_macro_err attr.span "unexpected name=value argument" ex)
      | none => .error (proc_macro_err attr.span "wrong format" ex)
    else
      attr_list rest ident ex

/-- `attr_nested_one_arg` from `src/proc_macro.rs`, with the
`ExactSizeIterator` argument split into its reported length `len` and its
element stream `list`.  The outer `Option` embeds the
`.expect("Core library iterator is broken")` call: `none` is the panic,
reached only when the reported length is `1` but the stream is empty.
In `proc_macro_err!($attr, ...)` here `$attr` is the `&str` argument
`attr_name`, whose `Spanned::span()` is the call site. -/
def attr_nested_one_arg_impl (len : Nat) (list : List NestedMeta)
    (ex : String) : Option (Except SynError (Option String)) :=
  match len with
  | 0 => some (.error
      (proc_macro_err Span.callSite "unexpected absence of argument" ex))
  | 1 =>
    match list.head? with
    | some (NestedMeta.Meta m) =>
      match m with
      | Meta.Path path => some (.ok path.get_ident)
      | _ => some (.error
          (proc_macro_err Span.callSite "unexpected attribute type" ex))
    | some (NestedMeta.Lit _) => some (.error
        (proc_macro_err Span.callSite
          "unexpected literal for type identifier is met" ex))
    | none => none
  | _ => some (.error
      (proc_macro_err Span.callSite
        "unexpected multiple type identifiers" ex))

/-- `attr_nested_one_arg` applied to an iterator that honours the
`ExactSizeIterator` contract (`len()` equals the number of elements). -/
def attr_nested_one_arg (list : List NestedMeta) (ex : String) :
    Option (Except SynError (Option String)) :=
  attr_nested_one_arg_impl list.length list ex

/-- `attr_nested_one_named_value` from `src/proc_macro.rs`, embedded the
same way as `attr_nested_one_arg_impl`; succeeds only on a single
`name = value` nested meta. -/
def attr_nested_one_named_value_impl (len : Nat) (list : List NestedMeta)
    (ex : String) : Option (Except SynError MetaNameValue) :=
  match len with
  | 0 => some (.error
      (proc_macro_err Span.callSite "unexpected absence of argument" ex))
  | 1 =>
    match list.head? with
    | some (NestedMeta.Meta m) =>
      match m with
      | Meta.NameValue nv => some (.ok nv)
      | _ => some (.error
          (proc_macro_err Span.callSite "unexpected attribute type" ex))
    | some (NestedMeta.Lit _) => some (.error
        (proc_macro_err Span.callSite
          "unexpected literal for type identifier is met" ex))
    | none => none
  | _ => some (.error
      (proc_macro_err Span.callSite
        "unexpected multiple type identifiers" ex))

/-- `attr_nested_one_named_value` applied to an iterator that honours the
`ExactSizeIterator` contract. -/
def attr_nested_one_named_value (list : List NestedMeta) (ex : String) :
    Option (Except SynError MetaNameValue) :=
  attr_nested_one_named_value_impl list.length list ex

/-- `syn::Type`: a Rust type expression.  The sources never look inside one,
only clone it and re-emit its tokens, so it is kept as its token list. -/
structure RustType where
  tokens : List String
deriving Repr, DecidableEq

/-- The crate's own error type (`amplify_syn::Error`) is defined outside the
analysed sources; only the two variants `syn/src/val.rs` constructs are
modelled.  Both are built with no arguments (`Err(Error::ArgValueMustBeLiteral)`,
`Err(Error::ArgValueMustBeType)`), hence they are fieldless constructors. -/
inductive Error where
  | ArgValueMustBeLiteral
  | ArgValueMustBeType
deriving Repr, DecidableEq

/-- The source span held inside an `Error` value: the two variants
constructed in `syn/src/val.rs` are fieldless, so none carries a span. -/
def Error.span? : Error → Option Span := fun _ => none

/-- `ArgValue` from `syn/src/val.rs`: the value part of `#[attr = value]`
or `#[attr(arg = value)]` — a literal, a type name, or nothing. -/
inductive ArgValue where
  | Literal (lit : Lit)
  | «Type» (ty : RustType)
  | None
deriving Repr, DecidableEq

/-- `impl From<&str> for ArgValue` (and the identical `From<String>`):
wrap the string as a `LitStr` at the call site. -/
def ArgValue.from_str (val : String) : ArgValue :=
  .Literal (.Str ⟨val, Span.callSite⟩)

/-- `impl From<&[u8]> for ArgValue` (and the identical `From<Vec<u8>>`). -/
def ArgValue.from_byte_str (val : List Nat) : ArgValue :=
  .Literal (.ByteStr ⟨val, Span.callSite⟩)

/-- `impl From<char> for ArgValue`. -/
def ArgValue.from_char (val : Char) : ArgValue :=
  .Literal (.Char ⟨val, Span.callSite⟩)

/-- `impl From<usize> for ArgValue`: the decimal digits of the value. -/
def ArgValue.from_usize (val : Nat) : ArgValue :=
  .Literal (.Int ⟨toString val, Span.callSite⟩)

/-- `impl From<isize> for ArgValue`: the decimal digits of the value. -/
def ArgValue.from_isize (val : Int) : ArgValue :=
  .Literal (.Int ⟨toString val, Span.callSite⟩)

/-- `impl From<Option<LitStr>> for ArgValue`. -/
def ArgValue.from_option_lit_str : Option LitStr → ArgValue
  | some v => .Literal (.Str v)
  | none => .None

/-- `impl From<Option<LitByteStr>> for ArgValue`. -/
def ArgValue.from_option_lit_byte_str : Option LitByteStr → ArgValue
  | some v => .Literal (.ByteStr v)
  | none => .None

/-- `impl From<Option<LitBool>> for ArgValue`. -/
def ArgValue.from_option_lit_bool : Option LitBool → ArgValue
  | some v => .Literal (.Bool v)
  | none => .None

/-- `impl From<Option<LitChar>> for ArgValue`. -/
def ArgValue.from_option_lit_char : Option LitChar → ArgValue
  | some v => .Literal (.Char v)
  | none => .None

/-- `impl From<Option<LitInt>> for ArgValue`. -/
def ArgValue.from_option_lit_int : Option LitInt → ArgValue
  | some v => .Literal (.Int v)
  | none => .None

/-- `impl From<Option<LitFloat>> for ArgValue`. -/
def ArgValue.from_option_lit_float : Option LitFloat → ArgValue
  | some v => .Literal (.Float v)
  | none => .None

/-- `impl TryInto<String> for ArgValue`: the held string literal's value. -/
def ArgValue.try_into_string : ArgValue → Except Error String
  | .Literal (.Str s) => .ok s.value
  | _ => .error .ArgValueMustBeLiteral

/-- `impl TryInto<Vec<u8>> for ArgValue`. -/
def ArgValue.try_into_byte_vec : ArgValue → Except Error (List Nat)
  | .Literal (.ByteStr s) => .ok s.value
  | _ => .error .ArgValueMustBeLiteral

/-- `impl TryInto<bool> for ArgValue`. -/
def ArgValue.try_into_bool : ArgValue → Except Error Bool
  | .Literal (.Bool b) => .ok b.value
  | _ => .error .ArgValueMustBeLiteral

/-- `impl TryInto<char> for ArgValue`. -/
def ArgValue.try_into_char : ArgValue → Except Error Char
  | .Literal (.Char c) => .ok c.value
  | _ => .error .ArgValueMustBeLiteral

/-- `impl TryInto<LitStr> for ArgValue`. -/
def ArgValue.try_into_lit_str : ArgValue → Except Error LitStr
  | .Literal (.Str s) => .ok s
  | _ => .error .ArgValueMustBeLiteral

/-- `impl TryInto<LitByteStr> for ArgValue`. -/
def ArgValue.try_into_lit_byte_str : ArgValue → Except Error LitByteStr
  | .Literal (.ByteStr s) => .ok s
  | _ => .error .ArgValueMustBeLiteral

/-- `impl TryInto<LitBool> for ArgValue`. -/
def ArgValue.try_into_lit_bool : ArgValue → Except Error LitBool
  | .Literal (.Bool b) => .ok b
  | _ => .error .ArgValueMustBeLiteral

/-- `impl TryInto<LitChar> for ArgValue`. -/
def ArgValue.try_into_lit_char : ArgValue → Except Error LitChar
  | .Literal (.Char c) => .ok c
  | _ => .error .ArgValueMustBeLiteral

/-- `impl TryInto<LitInt> for ArgValue`. -/
def ArgValue.try_into_lit_int : ArgValue → Except Error LitInt
  | .Literal (.Int i) => .ok i
  | _ => .error .ArgValueMustBeLiteral

/-- `impl TryInto<LitFloat> for ArgValue`. -/
def ArgValue.try_into_lit_float : ArgValue → Except Error LitFloat
  | .Literal (.Float f) => .ok f
  | _ => .error .ArgValueMustBeLiteral

/-- `impl TryInto<Option<LitStr>> for ArgValue`: `None` maps to `Ok(None)`. -/
def ArgValue.try_into_option_lit_str : ArgValue → Except Error (Option LitStr)
  | .Literal (.Str s) => .ok (some s)
  | .None => .ok none
  | _ => .error .ArgValueMustBeLiteral

/-- `impl TryInto<Option<LitByteStr>> for ArgValue`. -/
def ArgValue.try_into_option_lit_byte_str :
    ArgValue → Except Error (Option LitByteStr)
  | .Literal (.ByteStr s) => .ok (some s)
  | .None => .ok none
  | _ => .error .ArgValueMustBeLiteral

/-- `impl TryInto<Option<LitBool>> for ArgValue`. -/
def ArgValue.try_into_option_lit_bool : ArgValue → Except Error (Option LitBool)
  | .Literal (.Bool b) => .ok (some b)
  | .None => .ok none
  | _ => .error .ArgValueMustBeLiteral

/-- `impl TryInto<Option<LitChar>> for ArgValue`. -/
def ArgValue.try_into_option_lit_char : ArgValue → Except Error (Option LitChar)
  | .Literal (.Char c) => .ok (some c)
  | .None => .ok none
  | _ => .error .ArgValueMustBeLiteral

/-- `impl TryInto<Option<LitInt>> for ArgValue`. -/
def ArgValue.try_into_option_lit_int : ArgValue → Except Error (Option LitInt)
  | .Literal (.Int i) => .ok (some i)
  | .None => .ok none
  | _ => .error .ArgValueMustBeLiteral

/-- `impl TryInto<Option<LitFloat>> for ArgValue`. -/
def ArgValue.try_into_option_lit_float :
    ArgValue → Except Error (Option LitFloat)
  | .Literal (.Float f) => .ok (some f)
  | .None => .ok none
  | _ => .error .ArgValueMustBeLiteral

/-- Modelled from the spec: `ValueClass` is defined outside the analysed
sources; the spec describes classification as "which literal subtype is
this", so it is one tag per literal subtype plus a tag for type values. -/
inductive ValueClass where
  | StrClass
  | ByteStrClass
  | ByteClass
  | CharClass
  | IntClass
  | FloatClass
  | BoolClass
  | VerbatimClass
  | TypeClass
deriving Repr, DecidableEq

/-- Modelled from the spec: `ValueClass::from(&Lit)`, the literal's subtype. -/
def ValueClass.from_lit : Lit → ValueClass
  | .Str _ => .StrClass
  | .ByteStr _ => .ByteStrClass
  | .Byte _ => .ByteClass
  | .Char _ => .CharClass
  | .Int _ => .IntClass
  | .Float _ => .FloatClass
  | .Bool _ => .BoolClass
  | .Verbatim _ => .VerbatimClass

/-- Modelled from the spec: `ValueClass::from(&Type)`, a type value. -/
def ValueClass.from_type : RustType → ValueClass := fun _ => .TypeClass

/-- One tree of a `proc_macro2::TokenStream` as the sources re-emit them:
a literal token or the tokens of a type expression. -/
inductive TokenTree where
  | lit (l : Lit)
  | ty (t : RustType)
deriving Repr, DecidableEq

/-- `proc_macro2::TokenStream`, as a list of token trees. -/
abbrev TokenStream := List TokenTree

/-- `ArgValue::to_token_stream`: re-emit the held literal or type through
`quote!`; the `None` variant quotes to the empty stream. -/
def ArgValue.to_token_stream : ArgValue → TokenStream
  | .Literal l => [.lit l]
  | .«Type» t => [.ty t]
  | .None => []

/-- `ArgValue::literal_value`: a clone of the held literal, or
`Error::ArgValueMustBeLiteral` on the `Type` and `None` variants. -/
def ArgValue.literal_value : ArgValue → Except Error Lit
  | .Literal lit => .ok lit
  | .«Type» _ | .None => .error .ArgValueMustBeLiteral

/-- `ArgValue::type_value`: a clone of the held type, or
`Error::ArgValueMustBeType` on the `Literal` and `None` variants. -/
def ArgValue.type_value : ArgValue → Except Error RustType
  | .Literal _ | .None => .error .ArgValueMustBeType
  | .«Type» ty => .ok ty

/-- `ArgValue::is_none`: whether the value is the `None` variant. -/
def ArgValue.is_none : ArgValue → Bool
  | .None => true
  | _ => false

/-- `ArgValue::is_some`: whether the value is not the `None` variant. -/
def ArgValue.is_some : ArgValue → Bool
  | .None => false
  | _ => true

/-- `ArgValue::value_class`: the `ValueClass` of the held value, if any. -/
def ArgValue.value_class : ArgValue → Option ValueClass
  | .Literal lit => some (ValueClass.from_lit lit)
  | .«Type» ty => some (ValueClass.from_type ty)
  | .None => none

/-- The fixed set of violation messages the `proc_macro_err!` expansion
sites in `src/proc_macro.rs` can produce. -/
def violation_msgs : List String :=
  ["unexpected path argument",
   "must have form `name=value`, not `name(value)`",
   "unexpected name=value argument",
   "wrong format",
   "unexpected absence of argument",
   "unexpected attribute type",
   "unexpected literal for type identifier is met",
   "unexpected multiple type identifiers"]

/-- Sample path `amplify`, used to evaluate the definitions. -/
def path0 : Path := ⟨false, [⟨"amplify", false⟩]⟩

/-- Sample literal, used to evaluate the definitions. -/
def lit0 : Lit := .Bool ⟨true, 3⟩

/-- Sample attribute `#[amplify]` whose body parses as a bare path. -/
def attr0 : Attribute := ⟨path0, 7, some (Meta.Path path0)⟩

/-- Sample derive input with the single attribute `attr0`. -/
def input0 : DeriveInput := ⟨[attr0]⟩

/-- Sample type expression, used to evaluate the definitions. -/
def ty0 : RustType := ⟨["u8"]⟩

/-! ## Theorems -/

theorem attr_named_value_loop_cases (attrs : List Attribute) (ident ex : String) :
    match attrs.find? (fun a => a.path.is_ident ident) with
    | none => attr_named_value_loop attrs ident ex = .ok none
    | some attr =>
      match attr.parse_meta with
      | some (Meta.NameValue nv) =>
        attr_named_value_loop attrs ident ex = .ok (some nv.lit)
      | some (Meta.Path _) =>
        attr_named_value_loop attrs ident ex =
          .error (proc_macro_err attr.span "unexpected path argument" ex)
      | some (Meta.List _ _) =>
        attr_named_value_loop attrs ident ex =
          .error (proc_macro_err attr.span
            "must have form `name=value`, not `name(value)`" ex)
      | none =>
        attr_named_value_loop attrs ident ex =
          .error (proc_macro_err attr.span "wrong format" ex) := by
  induction attrs with
  | nil => simp [attr_named_value_loop]
  | cons attr rest ih =>
    rw [List.find?_cons]
    cases h : attr.path.is_ident ident with
    | false => simpa [attr_named_value_loop, h] using ih
    | true =>
      cases hm : attr.parsed with
      | none => simp [attr_named_value_loop, Attribute.parse_meta, h, hm]
      | some m =>
        cases m <;> simp [attr_named_value_loop, Attribute.parse_meta, h, hm]

/-- C1: `attr_named_value` scans the derive input's attributes; at the first
attribute whose path matches the identifier it returns `Ok(Some(lit))` for a
`name = value` meta, a span-attached canonical-form error for a bare path,
a parenthesized list, or a parse failure; with no matching attribute it
returns `Ok(None)`. -/
theorem attr_named_value_first_match (input : DeriveInput) (ident ex : String) :
    match input.attrs.find? (fun a => a.path.is_ident ident) with
    | none => attr_named_value input ident ex = .ok none
    | some attr =>
      match attr.parse_meta with
      | some (Meta.NameValue nv) =>
        attr_named_value input ident ex = .ok (some nv.lit)
      | some (Meta.Path _) =>
        attr_named_value input ident ex =
          .error (proc_macro_err attr.span "unexpected path argument" ex)
      | some (Meta.List _ _) =>
        attr_named_value input ident ex =
          .error (proc_macro_err attr.span
            "must have form `name=value`, not `name(value)`" ex)
      | none =>
        attr_named_value input ident ex =
          .error (proc_macro_err attr.span "wrong format" ex) := by
  have h := attr_named_value_loop_cases input.attrs ident ex
  simpa [attr_named_value] using h

theorem attr_list_cases (attrs : List Attribute) (ident ex : String) :
    match attrs.find? (fun a => a.path.is_ident ident) with
    | none => attr_list attrs ident ex = .ok none
    | some attr =>
      match attr.parse_meta with
      | some (Meta.List _ nested) =>
        attr_list attrs ident ex = .ok (some nested)
      | some (Meta.Path _) =>
        attr_list attrs ident ex =
          .error (proc_macro_err attr.span "unexpected path argument" ex)
      | some (Meta.NameValue _) =>
        attr_list attrs ident ex =
          .error (proc_macro_err attr.span "unexpected name=value argument" ex)
      | none =>
        attr_list attrs ident ex =
          .error (proc_macro_err attr.span "wrong format" ex) := by
  induction attrs with
  | nil => simp [attr_list]
  | cons attr rest ih =>
    rw [List.find?_cons]
    cases h : attr.path.is_ident ident with
    | false => simpa [attr_list, h] using ih
    | true =>
      cases hm : attr.parsed with
      | none => simp [attr_list, Attribute.parse_meta, h, hm]
      | some m => cases m <;> simp [attr_list, Attribute.parse_meta, h, hm]

/-- C4: `attr_list` scans the attribute list; at the first attribute whose
path matches the identifier it returns `Ok(Some(v))` with exactly the nested
meta items, in order, for a parenthesized list, and a span-attached
canonical-form error for a bare path, a `name = value` pair, or a parse
failure; with no matching attribute it returns `Ok(None)`. -/
theorem attr_list_first_match (attrs : List Attribute) (ident ex : String) :
    match attrs.find? (fun a => a.path.is_ident ident) with
    | none => attr_list attrs ident ex = .ok none
    | some attr =>
      match attr.parse_meta with
      | some (Meta.List _ nested) =>
        attr_list attrs ident ex = .ok (some nested)
      | some (Meta.Path _) =>
        attr_list attrs ident ex =
          .error (proc_macro_err attr.span "unexpected path argument" ex)
      | some (Meta.NameValue _) =>
        attr_list attrs ident ex =
          .error (proc_macro_err attr.span "unexpected name=value argument" ex)
      | none =>
        attr_list attrs ident ex =
          .error (proc_macro_err attr.span "wrong format" ex) :=
  attr_list_cases attrs ident ex

/-- C3: with an honest `ExactSizeIterator`, `attr_nested_one_arg` errors on
zero or several nested items; on exactly one item it returns `Ok` with the
path's identifier for a bare-path meta and errors on every other shape.
`attr_nested_one_named_value` correspondingly returns `Ok` with the
`MetaNameValue` only for a single `name = value` meta and errors otherwise. -/
theorem attr_nested_one_cases (ex : String) :
    (attr_nested_one_arg [] ex = some (.error (proc_macro_err Span.callSite
        "unexpected absence of argument" ex))) ∧
    (∀ p, attr_nested_one_arg [NestedMeta.Meta (Meta.Path p)] ex =
        some (.ok p.get_ident)) ∧
    (∀ pa n, attr_nested_one_arg [NestedMeta.Meta (Meta.List pa n)] ex =
        some (.error
          (proc_macro_err Span.callSite "unexpected attribute type" ex))) ∧
    (∀ nv, attr_nested_one_arg [NestedMeta.Meta (Meta.NameValue nv)] ex =
        some (.error
          (proc_macro_err Span.callSite "unexpected attribute type" ex))) ∧
    (∀ l, attr_nested_one_arg [NestedMeta.Lit l] ex =
        some (.error (proc_macro_err Span.callSite
          "unexpected literal for type identifier is met" ex))) ∧
    (∀ (a b : NestedMeta) (rest : List NestedMeta),
        attr_nested_one_arg (a :: b :: rest) ex =
        some (.error (proc_macro_err Span.callSite
          "unexpected multiple type identifiers" ex))) ∧
    (attr_nested_one_named_value [] ex =
        some (.error (proc_macro_err Span.callSite
          "unexpected absence of argument" ex))) ∧
    (∀ nv, attr_nested_one_named_value [NestedMeta.Meta (Meta.NameValue nv)] ex
        = some (.ok nv)) ∧
    (∀ p, attr_nested_one_named_value [NestedMeta.Meta (Meta.Path p)] ex =
        some (.error
          (proc_macro_err Span.callSite "unexpected attribute type" ex))) ∧
    (∀ pa n, attr_nested_one_named_value [NestedMeta.Meta (Meta.List pa n)] ex =
        some (.error
          (proc_macro_err Span.callSite "unexpected attribute type" ex))) ∧
    (∀ l, attr_nested_one_named_value [NestedMeta.Lit l] ex =
        some (.error (proc_macro_err Span.callSite
          "unexpected literal for type identifier is met" ex))) ∧
    (∀ (a b : NestedMeta) (rest : List NestedMeta),
        attr_nested_one_named_value (a :: b :: rest) ex =
        some (.error (proc_macro_err Span.callSite
          "unexpected multiple type identifiers" ex))) := by
  refine ⟨rfl, fun p => rfl, fun pa n => rfl, fun nv => rfl, fun l => rfl,
    fun a b rest => rfl, rfl, fun nv => rfl, fun p => rfl, fun pa n => rfl,
    fun l => rfl, fun a b rest => rfl⟩

/-- C8: the `.expect("Core library iterator is broken")` calls in
`attr_nested_one_arg` and `attr_nested_one_named_value` are unreachable
whenever the iterator honours the `ExactSizeIterator` contract (its
reported length equals its number of elements): the embedded functions,
whose `none` result is the panic, always return `some`. -/
theorem attr_nested_no_panic (list : List NestedMeta) (ex : String) :
    (attr_nested_one_arg_impl list.length list ex).isSome = true ∧
    (attr_nested_one_named_value_impl list.length list ex).isSome = true := by
  constructor
  · match list with
    | [] => rfl
    | [NestedMeta.Meta (Meta.Path p)] => rfl
    | [NestedMeta.Meta (Meta.List pa n)] => rfl
    | [NestedMeta.Meta (Meta.NameValue nv)] => rfl
    | [NestedMeta.Lit l] => rfl
    | a :: b :: rest => rfl
  · match list with
    | [] => rfl
    | [NestedMeta.Meta (Meta.Path p)] => rfl
    | [NestedMeta.Meta (Meta.List pa n)] => rfl
    | [NestedMeta.Meta (Meta.NameValue nv)] => rfl
    | [NestedMeta.Lit l] => rfl
    | a :: b :: rest => rfl

/-- C5: conversions into `ArgValue` and back round-trip — a string wrapped
by `From<&str>` (or `From<String>`) is recovered by `TryInto<String>`, and
every optional literal subtype wrapped by `From<Option<LitX>>` is recovered
by `TryInto<Option<LitX>>`, for all six subtypes. -/
theorem arg_value_roundtrip :
    (∀ s : String, (ArgValue.from_str s).try_into_string = .ok s) ∧
    (∀ o : Option LitStr,
      (ArgValue.from_option_lit_str o).try_into_option_lit_str = .ok o) ∧
    (∀ o : Option LitByteStr,
      (ArgValue.from_option_lit_byte_str o).try_into_option_lit_byte_str
        = .ok o) ∧
    (∀ o : Option LitBool,
      (ArgValue.from_option_lit_bool o).try_into_option_lit_bool = .ok o) ∧
    (∀ o : Option LitChar,
      (ArgValue.from_option_lit_char o).try_into_option_lit_char = .ok o) ∧
    (∀ o : Option LitInt,
      (ArgValue.from_option_lit_int o).try_into_option_lit_int = .ok o) ∧
    (∀ o : Option LitFloat,
      (ArgValue.from_option_lit_float o).try_into_option_lit_float = .ok o) :=
  ⟨fun _ => rfl,
   fun o => by cases o <;> rfl,
   fun o => by cases o <;> rfl,
   fun o => by cases o <;> rfl,
   fun o => by cases o <;> rfl,
   fun o => by cases o <;> rfl,
   fun o => by cases o <;> rfl⟩

/-- C6: `literal_value` returns a copy of the held literal exactly on the
`Literal` variant and `Error::ArgValueMustBeLiteral` on `Type` and `None`;
`type_value` returns a copy of the held type exactly on the `Type` variant
and `Error::ArgValueMustBeType` on `Literal` and `None`.  Both take the
value by shared reference, so neither call changes it — in the embedding
they are plain functions of the unmodified value. -/
theorem arg_value_accessors :
    (∀ l, (ArgValue.Literal l).literal_value = .ok l) ∧
    (∀ t, (ArgValue.«Type» t).literal_value
      = .error Error.ArgValueMustBeLiteral) ∧
    (ArgValue.None.literal_value = .error Error.ArgValueMustBeLiteral) ∧
    (∀ t, (ArgValue.«Type» t).type_value = .ok t) ∧
    (∀ l, (ArgValue.Literal l).type_value = .error Error.ArgValueMustBeType) ∧
    (ArgValue.None.type_value = .error Error.ArgValueMustBeType) :=
  ⟨fun _ => rfl, fun _ => rfl, rfl, fun _ => rfl, fun _ => rfl, rfl⟩

/-- C9: each optional `TryInto<Option<LitX>>` maps `ArgValue::None` to
`Ok(None)` while the corresponding non-optional `TryInto<LitX>` maps it to
`Err(ArgValueMustBeLiteral)`; and a held literal of the wrong subtype (an
integer literal converted to `String`) also yields
`Err(ArgValueMustBeLiteral)`. -/
theorem arg_value_none_conversions :
    (ArgValue.None.try_into_option_lit_str = .ok none) ∧
    (ArgValue.None.try_into_option_lit_byte_str = .ok none) ∧
    (ArgValue.None.try_into_option_lit_bool = .ok none) ∧
    (ArgValue.None.try_into_option_lit_char = .ok none) ∧
    (ArgValue.None.try_into_option_lit_int = .ok none) ∧
    (ArgValue.None.try_into_option_lit_float = .ok none) ∧
    (ArgValue.None.try_into_lit_str = .error Error.ArgValueMustBeLiteral) ∧
    (ArgValue.None.try_into_lit_byte_str
      = .error Error.ArgValueMustBeLiteral) ∧
    (ArgValue.None.try_into_lit_bool = .error Error.ArgValueMustBeLiteral) ∧
    (ArgValue.None.try_into_lit_char = .error Error.ArgValueMustBeLiteral) ∧
    (ArgValue.None.try_into_lit_int = .error Error.ArgValueMustBeLiteral) ∧
    (ArgValue.None.try_into_lit_float = .error Error.ArgValueMustBeLiteral) ∧
    (∀ i : LitInt, (ArgValue.Literal (Lit.Int i)).try_into_string
      = .error Error.ArgValueMustBeLiteral) :=
  ⟨rfl, rfl, rfl, rfl, rfl, rfl, rfl, rfl, rfl, rfl, rfl, rfl, fun _ => rfl⟩

/-- C10: `is_some` is the negation of `is_none`; `is_none` holds exactly on
the `None` variant; `value_class` returns `Some` exactly when `is_some`
holds; and `to_token_stream` on the `None` variant is the empty stream. -/
theorem arg_value_flags :
    (∀ v : ArgValue, v.is_some = !v.is_none) ∧
    (ArgValue.None.is_none = true) ∧
    (∀ l, (ArgValue.Literal l).is_none = false) ∧
    (∀ t, (ArgValue.«Type» t).is_none = false) ∧
    (∀ v : ArgValue, (v.value_class).isSome = v.is_some) ∧
    (ArgValue.None.to_token_stream = []) :=
  ⟨fun v => by cases v <;> rfl, rfl, fun _ => rfl, fun _ => rfl,
   fun v => by cases v <;> rfl, rfl⟩

theorem mem_violation (ex msg : String) (h : msg ∈ violation_msgs) :
    canonical_msg ex msg ∈ violation_msgs.map (canonical_msg ex) :=
  List.mem_map_of_mem _ h

/-- C2 counterexample: converting a type-valued `ArgValue` to `String`
produces `Error::ArgValueMustBeLiteral`, an error value that carries no
source span; this refutes "every error produced by the library is a
descriptive message tied to a source span". -/
theorem error_without_span :
    (ArgValue.«Type» ty0).try_into_string = .error Error.ArgValueMustBeLiteral
      ∧ Error.span? Error.ArgValueMustBeLiteral = none :=
  ⟨rfl, rfl⟩

/-- C2 amended: the attribute-inspection functions report errors as
canonical-form messages tied to a source span (the matched attribute's span
for the two scanners, the call site for the two nested-argument helpers),
drawn from a fixed set of eight messages covering five violation shapes
(unexpected path argument, wrong list-vs-value form, parse failure, wrong
argument count, wrong argument kind); the `ArgValue` conversions and
accessors instead fail with the two span-free variants
`Error::ArgValueMustBeLiteral` and `Error::ArgValueMustBeType`. -/
theorem error_shapes :
    (∀ (input : DeriveInput) (ident ex : String) (e : SynError),
      attr_named_value input ident ex = .error e →
      e.message ∈ violation_msgs.map (canonical_msg ex) ∧
      (input.attrs.find? (fun a => a.path.is_ident ident)).map Attribute.span
        = some e.span) ∧
    (∀ (attrs : List Attribute) (ident ex : String) (e : SynError),
      attr_list attrs ident ex = .error e →
      e.message ∈ violation_msgs.map (canonical_msg ex) ∧
      (attrs.find? (fun a => a.path.is_ident ident)).map Attribute.span
        = some e.span) ∧
    (∀ (list : List NestedMeta) (ex : String) (e : SynError),
      attr_nested_one_arg list ex = some (.error e) →
      e.message ∈ violation_msgs.map (canonical_msg ex) ∧
      e.span = Span.callSite) ∧
    (∀ (list : List NestedMeta) (ex : String) (e : SynError),
      attr_nested_one_named_value list ex = some (.error e) →
      e.message ∈ violation_msgs.map (canonical_msg ex) ∧
      e.span = Span.callSite) ∧
    (∀ (v : ArgValue) (e : Error), v.try_into_string = .error e →
      e = .ArgValueMustBeLiteral ∧ Error.span? e = none) ∧
    (∀ (v : ArgValue) (e : Error), v.literal_value = .error e →
      e = .ArgValueMustBeLiteral ∧ Error.span? e = none) ∧
    (∀ (v : ArgValue) (e : Error), v.type_value = .error e →
      e = .ArgValueMustBeType ∧ Error.span? e = none) := by
  refine ⟨?_, ?_, ?_, ?_, ?_, ?_, ?_⟩
  · intro input ident ex e he
    have h := attr_named_value_loop_cases input.attrs ident ex
    rw [show attr_named_value input ident ex
        = attr_named_value_loop input.attrs ident ex from rfl] at he
    cases hf : input.attrs.find? (fun a => a.path.is_ident ident) with
    | none =>
      rw [hf] at h
      simp only at h
      rw [h] at he
      exact absurd he (by simp)
    | some attr =>
      rw [hf] at h
      cases hm : attr.parse_meta with
      | none =>
        simp only [hm] at h
        rw [h] at he
        injection he with he
        subst he
        exact ⟨mem_violation ex _ (by simp [violation_msgs]), rfl⟩
      | some m =>
        cases m with
        | Path p =>
          simp only [hm] at h
          rw [h] at he
          injection he with he
          subst he
          exact ⟨mem_violation ex _ (by simp [violation_msgs]), rfl⟩
        | List pa n =>
          simp only [hm] at h
          rw [h] at he
          injection he with he
          subst he
          exact ⟨mem_violation ex _ (by simp [violation_msgs]), rfl⟩
        | NameValue nv =>
          simp only [hm] at h
          rw [h] at he
          exact absurd he (by simp)
  · intro attrs ident ex e he
    have h := attr_list_cases attrs ident ex
    cases hf : attrs.find? (fun a => a.path.is_ident ident) with
    | none =>
      rw [hf] at h
      simp only at h
      rw [h] at he
      exact absurd he (by simp)
    | some attr =>
      rw [hf] at h
      cases hm : attr.parse_meta with
      | none =>
        simp only [hm] at h
        rw [h] at he
        injection he with he
        subst he
        exact ⟨mem_violation ex _ (by simp [violation_msgs]), rfl⟩
      | some m =>
        cases m with
        | Path p =>
          simp only [hm] at h
          rw [h] at he
          injection he with he
          subst he
          exact ⟨mem_violation ex _ (by simp [violation_msgs]), rfl⟩
        | List pa n =>
          simp only [hm] at h
          rw [h] at he
          exact absurd he (by simp)
        | NameValue nv =>
          simp only [hm] at h
          rw [h] at he
          injection he with he
          subst he
          exact ⟨mem_violation ex _ (by simp [violation_msgs]), rfl⟩
  · intro list ex e he
    match list with
    | [] =>
      injection he with he
      injection he with he
      subst he
      exact ⟨mem_violation ex _ (by simp [violation_msgs]), rfl⟩
    | [NestedMeta.Meta (Meta.Path p)] =>
      injection he with he
      injection he
    | [NestedMeta.Meta (Meta.List pa n)] =>
      injection he with he
      injection he with he
      subst he
      exact ⟨mem_violation ex _ (by simp [violation_msgs]), rfl⟩
    | [NestedMeta.Meta (Meta.NameValue nv)] =>
      injection he with he
      injection he with he
      subst he
      exact ⟨mem_violation ex _ (by simp [violation_msgs]), rfl⟩
    | [NestedMeta.Lit l] =>
      injection he with he
      injection he with he
      subst he
      exact ⟨mem_violation ex _ (by simp [violation_msgs]), rfl⟩
    | a :: b :: rest =>
      injection he with he
      injection he with he
      subst he
      exact ⟨mem_violation ex _ (by simp [violation_msgs]), rfl⟩
  · intro list ex e he
    match list with
    | [] =>
      injection he with he
      injection he with he
      subst he
      exact ⟨mem_violation ex _ (by simp [violation_msgs]), rfl⟩
    | [NestedMeta.Meta (Meta.Path p)] =>
      injection he with he
      injection he with he
      subst he
      exact ⟨mem_violation ex _ (by simp [violation_msgs]), rfl⟩
    | [NestedMeta.Meta (Meta.List pa n)] =>
      injection he with he
      injection he with he
      subst he
      exact ⟨mem_violation ex _ (by simp [violation_msgs]), rfl⟩
    | [NestedMeta.Meta (Meta.NameValue nv)] =>
      injection he with he
      injection he
    | [NestedMeta.Lit l] =>
      injection he with he
      injection he with he
      subst he
      exact ⟨mem_violation ex _ (by simp [violation_msgs]), rfl⟩
    | a :: b :: rest =>
      injection he with he
      injection he with he
      subst he
      exact ⟨mem_violation ex _ (by simp [violation_msgs]), rfl⟩
  · intro v e he
    refine ⟨?_, rfl⟩
    cases v with
    | Literal lit => cases lit <;> simp_all [ArgValue.try_into_string]
    | «Type» t => simp_all [ArgValue.try_into_string]
    | None => simp_all [ArgValue.try_into_string]
  · intro v e he
    refine ⟨?_, rfl⟩
    cases v <;> simp_all [ArgValue.literal_value]
  · intro v e he
    refine ⟨?_, rfl⟩
    cases v <;> simp_all [ArgValue.type_value]

/-- C2 amended, evaluated: the error raised for `#[amplify]` (a bare-path
attribute body) by `attr_named_value` carries one of the eight canonical
messages. -/
theorem error_shapes_witness :
    (proc_macro_err 7 "unexpected path argument" "ex").message ∈
      violation_msgs.map (canonical_msg "ex") :=
  (error_shapes.1 input0 "amplify" "ex"
    (proc_macro_err 7 "unexpected path argument" "ex") rfl).1

/-- C7: the modelled public operations are deterministic — two invocations
on equal inputs return equal results.  Side-effect freedom holds by the
shape of the embedding: every operation is a state-free function that only
constructs and returns values. -/
theorem operations_deterministic :
    (∀ (i j : DeriveInput) (ident ex : String), i = j →
      attr_named_value i ident ex = attr_named_value j ident ex) ∧
    (∀ (a b : List Attribute) (ident ex : String), a = b →
      attr_list a ident ex = attr_list b ident ex) ∧
    (∀ (a b : List NestedMeta) (ex : String), a = b →
      attr_nested_one_arg a ex = attr_nested_one_arg b ex) ∧
    (∀ (a b : List NestedMeta) (ex : String), a = b →
      attr_nested_one_named_value a ex = attr_nested_one_named_value b ex) ∧
    (∀ (v w : ArgValue), v = w →
      v.to_token_stream = w.to_token_stream ∧
      v.literal_value = w.literal_value ∧
      v.type_value = w.type_value ∧
      v.is_none = w.is_none ∧
      v.is_some = w.is_some ∧
      v.value_class = w.value_class ∧
      v.try_into_string = w.try_into_string) :=
  ⟨fun _ _ _ _ h => by rw [h],
   fun _ _ _ _ h => by rw [h],
   fun _ _ _ h => by rw [h],
   fun _ _ _ h => by rw [h],
   fun _ _ h => by rw [h]; exact ⟨rfl, rfl, rfl, rfl, rfl, rfl, rfl⟩⟩

/-- C7, evaluated: determinism of `attr_named_value` at the sample input. -/
theorem operations_deterministic_witness :
    attr_named_value input0 "amplify" "ex"
      = attr_named_value input0 "amplify" "ex" :=
  operations_deterministic.1 input0 input0 "amplify" "ex" rfl

end Amplify
